import Mathlib

/-!
Shallow embedding of `src/ThingsBoard/src/Attribute_Request.h`: the
request/response correlation engine for ThingsBoard attribute requests.
Pure data is modelled directly; the mutable object state
(`m_attribute_request_callbacks`, the shared request-id counter) is threaded
explicitly through each operation, and calls to the host-supplied transport
callbacks (subscribe, unsubscribe, publish, handler invocation) are recorded
as an event list so that claims about which calls are issued can be stated.

Parts of the repository that the claims depend on but that are not under
`src/` (the `Attribute_Request_Callback` record class, `Helper` routines and
the timeout machinery) are modelled from the specification; each such
definition carries a doc comment starting with `Modelled from the spec:`.
-/

namespace ThingsBoard

/-- Minimal model of an ArduinoJson `JsonDocument` / `JsonObjectConst`:
an object is a finite association list from field names to values. -/
inductive Json where
  | num : Int → Json
  | str : String → Json
  | obj : List (String × Json) → Json

/-- `JsonObjectConst::containsKey`. -/
def Json.containsKey (j : Json) (k : String) : Bool :=
  match j with
  | .obj kvs => kvs.any (fun kv => kv.1 == k)
  | _ => false

/-- `object[key]`: narrowing to the sub-document stored under `k`
(an absent key yields an empty object, which the source never reads
because it narrows only after `containsKey`). -/
def Json.getKey (j : Json) (k : String) : Json :=
  match j with
  | .obj kvs => (((kvs.find? (fun kv => kv.1 == k)).map Prod.snd).getD (.obj []))
  | _ => .obj []

-- Topic and payload-field constants from Attribute_Request.h.
def ATTRIBUTE_REQUEST_TOPIC_PREFIX : String := "v1/devices/me/attributes/request/"
def ATTRIBUTE_RESPONSE_SUBSCRIBE_TOPIC : String := "v1/devices/me/attributes/response/+"
def ATTRIBUTE_RESPONSE_TOPIC : String := "v1/devices/me/attributes/response/"
def CLIENT_REQUEST_KEYS : String := "clientKeys"
def CLIENT_RESPONSE_KEY : String := "client"
def SHARED_REQUEST_KEY : String := "sharedKeys"
def SHARED_RESPONSE_KEY : String := "shared"

/-- Modelled from the spec: the `Attribute_Request_Callback` class is not
under `src/`.  Per the data model of the spec a pending-request record holds
the ordered requested keys, the response-side key to extract, the assigned
request id, timeout state and the user handler.  Requested keys are
`Option String` because the source tolerates and skips NULL keys; the user
handler is abstracted by a numeric tag recorded in handler-invocation
events.  `request_id` and `attribute_key` are `Option` because, per the
spec lifecycle, they are unassigned until `Set_Request_ID` /
`Set_Attribute_Key` run during issue. -/
structure Attribute_Request_Callback where
  attributes : List (Option String)
  handlerTag : Nat
  m_request_id : Option Nat := none
  m_attribute_key : Option String := none
  m_timer_active : Bool := false
  m_elapsed : Nat := 0
deriving DecidableEq, Inhabited

/-- Observable calls to the host-supplied transport callbacks and to user
handlers.  `handlerTimeout` is the timeout/empty-value invocation of the
spec timeout path. -/
inductive Event where
  | subscribe
  | unsubscribe
  | publish (topic : String) (field : String) (value : String)
  | handlerCall (tag : Nat) (doc : Json)
  | handlerTimeout (tag : Nat)

def Event.isSubscribe : Event → Bool
  | Event.subscribe => true
  | _ => false

def Event.isUnsubscribe : Event → Bool
  | Event.unsubscribe => true
  | _ => false

def Event.isPublish : Event → Bool
  | Event.publish _ _ _ => true
  | _ => false

def Event.isHandler : Event → Bool
  | Event.handlerCall _ _ => true
  | Event.handlerTimeout _ => true
  | _ => false

/-- Outcomes of the host-supplied capabilities during one call:
whether `m_subscribe_topic_callback` succeeds, whether
`m_send_json_callback` succeeds, and whether `m_get_request_id_callback`
returns a non-null pointer. -/
structure Env where
  subscribe_ok : Bool
  send_ok : Bool
  request_id_ptr : Bool

/-- The mutable state of one `Attribute_Request` object together with the
host-owned shared request-id counter reached through
`m_get_request_id_callback`.  `capacity` is `some MaxSubscriptions` when
`THINGSBOARD_ENABLE_DYNAMIC` is off (bounded `Array` backing) and `none`
for the dynamic `Vector` backing. -/
structure State where
  m_attribute_request_callbacks : List Attribute_Request_Callback
  capacity : Option Nat
  request_id_counter : Nat
deriving DecidableEq

/-- Size computation of `Attributes_Request` (lines 215-223): for every
non-null non-empty key add `strlen(att) + strlen(",")`. -/
def attSize (att : Option String) : Nat :=
  match att with
  | none => 0
  | some s => if s.length = 0 then 0 else s.length + 1

def computedSize (atts : List (Option String)) : Nat :=
  (atts.map attSize).sum

/-- One C `strncat(dst, src, n)` call on a buffer currently holding the
null-terminated string `content`: appends at most `n` characters of `src`
at the current end, then always writes one terminating null byte.  Returns
the new string content and the index at which the terminating null byte was
written (the highest index this call touches). -/
def strncatCall (content src : List Char) (n : Nat) : List Char × Nat :=
  ((content ++ src.take n), content.length + (src.take n).length)

/-- The concatenation loop of `Attributes_Request` (lines 227-239):
skip null/empty keys, otherwise `strncat` the key with bound `size`,
subtract its length, `strncat` a comma with the reduced bound, subtract
one.  Alongside the buffer content we track the highest buffer index any
`strncat` call wrote (its terminating null included). -/
def catLoop : List (Option String) → List Char → Nat → Nat → List Char × Nat
  | [], content, _, maxW => (content, maxW)
  | att :: rest, content, size, maxW =>
    match att with
    | none => catLoop rest content size maxW
    | some s =>
      if s.length = 0 then catLoop rest content size maxW
      else
        let c1 := strncatCall content s.data size
        let size1 := size - s.length
        let c2 := strncatCall c1.1 [','] size1
        let size2 := size1 - 1
        catLoop rest c2.1 size2 (max maxW (max c1.2 c2.2))

/-- The joined comma-separated request value: content of the stack buffer
`request` after the loop, plus the highest buffer index written.  The
buffer `char request[size]` has exactly `computedSize atts` bytes, so its
valid indices are those strictly below `computedSize atts`. -/
def joinedRequest (atts : List (Option String)) : List Char × Nat :=
  catLoop atts [] (computedSize atts) 0

/-- Mutation through `registered_callback`, which points at
`m_attribute_request_callbacks.back()`: apply `f` to the last element. -/
def setLast (l : List Attribute_Request_Callback)
    (f : Attribute_Request_Callback → Attribute_Request_Callback) :
    List Attribute_Request_Callback :=
  match l with
  | [] => []
  | [x] => [f x]
  | x :: y :: xs => x :: setLast (y :: xs) f

/-- The capacity check of `Attributes_Request_Subscribe` (lines 271-276):
in bounded mode (`THINGSBOARD_ENABLE_DYNAMIC` off) the insertion is refused
when `size() + 1 > capacity()`. -/
def storeFull (s : State) : Bool :=
  match s.capacity with
  | some cap => decide (s.m_attribute_request_callbacks.length + 1 > cap)
  | none => false

/-- `Attributes_Request_Subscribe` (lines 267-284): fail without side
effects when the bounded store is full; otherwise call the subscribe
callback (recorded as an `Event.subscribe` in every attempt) and on
failure return with the store untouched; on success push a copy of the
callback onto the store (the `registered_callback` out-parameter then
points at that last element, so it is never null on the success path and
the dead `registered_callback == nullptr` check in the caller is elided). -/
def Attributes_Request_Subscribe (s : State) (env : Env)
    (cb : Attribute_Request_Callback) : Bool × State × List Event :=
  if storeFull s = true then
    (false, s, [])
  else if env.subscribe_ok = false then
    (false, s, [Event.subscribe])
  else
    (true,
     { s with m_attribute_request_callbacks :=
        s.m_attribute_request_callbacks ++ [cb] },
     [Event.subscribe])

/-- `Attributes_Request` (lines 176-260): reject an empty key list or a
null request/response key with no side effects; subscribe-and-insert;
build the joined key string; fetch the shared counter pointer (a null
pointer aborts with the record already inserted); pre-increment the
counter, assign id and response key to the registered record, start its
timeout timer; publish the single-field document to the per-id request
topic and return the publish result. -/
def Attributes_Request (s : State) (env : Env)
    (attributes : List (Option String)) (handlerTag : Nat)
    (attribute_request_key attribute_response_key : Option String) :
    Bool × State × List Event :=
  if attributes.isEmpty then (false, s, [])
  else if attribute_request_key.isNone || attribute_response_key.isNone then
    (false, s, [])
  else
    let sub := Attributes_Request_Subscribe s env
      { attributes := attributes, handlerTag := handlerTag }
    if sub.1 = false then (false, sub.2.1, sub.2.2)
    else
      let s1 := sub.2.1
      let joined := joinedRequest attributes
      if env.request_id_ptr = false then (false, s1, sub.2.2)
      else
        let rid := s1.request_id_counter + 1
        let s2 : State :=
          { s1 with
            request_id_counter := rid,
            m_attribute_request_callbacks :=
              setLast s1.m_attribute_request_callbacks
                (fun r =>
                  { r with
                    m_request_id := some rid,
                    m_attribute_key := attribute_response_key,
                    m_timer_active := true,
                    m_elapsed := 0 }) }
        (env.send_ok, s2,
         sub.2.2 ++
          [Event.publish (ATTRIBUTE_REQUEST_TOPIC_PREFIX ++ toString rid)
            (attribute_request_key.getD "") (String.mk joined.1)])

def Client_Attributes_Request (s : State) (env : Env)
    (attributes : List (Option String)) (handlerTag : Nat) :
    Bool × State × List Event :=
  Attributes_Request s env attributes handlerTag
    (some CLIENT_REQUEST_KEYS) (some CLIENT_RESPONSE_KEY)

def Shared_Attributes_Request (s : State) (env : Env)
    (attributes : List (Option String)) (handlerTag : Nat) :
    Bool × State × List Event :=
  Attributes_Request s env attributes handlerTag
    (some SHARED_REQUEST_KEY) (some SHARED_RESPONSE_KEY)

/-- Modelled from the spec: `Helper::parseRequestId` is not under `src/`.
Per the spec the id is the numeric suffix following the fixed topic
prefix: drop the prefix and fold the decimal digits. -/
def parseDigits : List Char → Nat → Nat
  | [], acc => acc
  | c :: cs, acc =>
    if c.isDigit then parseDigits cs (acc * 10 + (c.toNat - 48))
    else parseDigits cs acc

def parseRequestId (pre topic : String) : Nat :=
  parseDigits (topic.data.drop pre.data.length) 0

/-- The scan of `Process_Json_Response` over the store (lines 88-127):
find the first record whose request id equals the topic-embedded id and
remove it (`Helper::remove` at the iterator); if its response key is null
the handler call is skipped (`goto delete_callback`), otherwise the
document is narrowed to the sub-document under that key when present and
the handler is invoked with it.  Records before the match are kept,
records after the first match are never looked at (`find_if` /
`break`). -/
def processList (l : List Attribute_Request_Callback) (rid : Nat)
    (data : Json) : List Attribute_Request_Callback × List Event :=
  match l with
  | [] => ([], [])
  | r :: rs =>
    if r.m_request_id = some rid then
      match r.m_attribute_key with
      | none => (rs, [])
      | some key =>
        (rs,
         [Event.handlerCall r.handlerTag
           (if data.containsKey key then data.getKey key else data)])
    else
      let rest := processList rs rid data
      (r :: rest.1, rest.2)

/-- `Attributes_Request_Unsubscribe` (lines 289-292): clear the store and
call the unsubscribe callback. -/
def Attributes_Request_Unsubscribe (s : State) : State × List Event :=
  ({ s with m_attribute_request_callbacks := [] }, [Event.unsubscribe])

/-- `Process_Json_Response` (lines 84-135): extract the id from the topic,
run the removal scan, then — whenever the store is empty afterwards, a
removal having happened or not — call `Attributes_Request_Unsubscribe`. -/
def Process_Json_Response (s : State) (topic : String) (data : Json) :
    State × List Event :=
  let rid := parseRequestId ATTRIBUTE_RESPONSE_TOPIC topic
  let scan := processList s.m_attribute_request_callbacks rid data
  let s1 : State := { s with m_attribute_request_callbacks := scan.1 }
  if scan.1.isEmpty then
    let unsub := Attributes_Request_Unsubscribe s1
    (unsub.1, scan.2 ++ unsub.2)
  else (s1, scan.2)

/-- Modelled from the spec: the timeout machinery
(`Update_Timeout_Timer`, driven once per `loop()` tick) lives in the
`Attribute_Request_Callback` class, which is not under `src/`.  Per the
spec each tick advances the elapsed time of every record with a running
timer by the wall time since the previous tick; a record whose elapsed
time exceeds the fixed threshold invokes its handler once with a
timeout/empty indication and is removed. -/
def tickList (l : List Attribute_Request_Callback) (dt th : Nat) :
    List Attribute_Request_Callback × List Event :=
  match l with
  | [] => ([], [])
  | r :: rs =>
    let r1 :=
      if r.m_timer_active then { r with m_elapsed := r.m_elapsed + dt } else r
    let rest := tickList rs dt th
    if r1.m_timer_active && decide (th < r1.m_elapsed) then
      (rest.1, Event.handlerTimeout r.handlerTag :: rest.2)
    else (r1 :: rest.1, rest.2)

/-- Modelled from the spec: one `loop()` tick (lines 150-154 drive it, the
per-record expiry action is spec section 4.3): advance and expire records,
then, when an expiry has just emptied the store, unsubscribe from the
shared response topic exactly as on the resolution path. -/
def tick (s : State) (dt th : Nat) : State × List Event :=
  let run := tickList s.m_attribute_request_callbacks dt th
  let s1 : State := { s with m_attribute_request_callbacks := run.1 }
  if run.1.isEmpty && !run.2.isEmpty then
    let unsub := Attributes_Request_Unsubscribe s1
    (unsub.1, run.2 ++ unsub.2)
  else (s1, run.2)

/-- The operations that can reach a state: issuing a request, resolving an
inbound response, a timeout tick, and the global unsubscribe-all. -/
inductive Op where
  | issue (env : Env) (attributes : List (Option String)) (tag : Nat)
      (reqKey : Option String) (respKey : Option String)
  | resolve (topic : String) (data : Json)
  | tickOp (dt th : Nat)
  | unsubscribeAll

def applyOpT (s : State) : Op → State × List Event
  | Op.issue env atts tag rk pk =>
    let r := Attributes_Request s env atts tag rk pk
    (r.2.1, r.2.2)
  | Op.resolve topic data => Process_Json_Response s topic data
  | Op.tickOp dt th => tick s dt th
  | Op.unsubscribeAll => Attributes_Request_Unsubscribe s

def applyOp (s : State) (op : Op) : State := (applyOpT s op).1

def initState (cap : Option Nat) : State :=
  { m_attribute_request_callbacks := [], capacity := cap,
    request_id_counter := 0 }

def runOps (cap : Option Nat) (ops : List Op) : State :=
  ops.foldl applyOp (initState cap)

/-- The request ids currently assigned to pending records. -/
def idsOf (l : List Attribute_Request_Callback) : List Nat :=
  l.filterMap (fun r => r.m_request_id)

/-- Reachable-state invariant: assigned ids are pairwise distinct, lie in
`[1, counter]`, and a record has an assigned id exactly when it has an
assigned response key. -/
def Inv (s : State) : Prop :=
  (idsOf s.m_attribute_request_callbacks).Nodup ∧
  (∀ k ∈ idsOf s.m_attribute_request_callbacks,
    1 ≤ k ∧ k ≤ s.request_id_counter) ∧
  (∀ r ∈ s.m_attribute_request_callbacks,
    r.m_request_id.isSome = r.m_attribute_key.isSome)

/-- Environment in which every host capability succeeds. -/
def allOkEnv : Env :=
  { subscribe_ok := true, send_ok := true, request_id_ptr := true }

/-! ### Branch lemmas for the issue path -/

theorem subscribe_when_full (s : State) (env : Env)
    (cb : Attribute_Request_Callback) (h : storeFull s = true) :
    Attributes_Request_Subscribe s env cb = (false, s, []) := by
  simp [Attributes_Request_Subscribe, h]

theorem subscribe_when_refused (s : State) (env : Env)
    (cb : Attribute_Request_Callback) (h : storeFull s = false)
    (h2 : env.subscribe_ok = false) :
    Attributes_Request_Subscribe s env cb = (false, s, [Event.subscribe]) := by
  simp [Attributes_Request_Subscribe, h, h2]

theorem subscribe_when_accepted (s : State) (env : Env)
    (cb : Attribute_Request_Callback) (h : storeFull s = false)
    (h2 : env.subscribe_ok = true) :
    Attributes_Request_Subscribe s env cb =
      (true,
       { s with m_attribute_request_callbacks :=
          s.m_attribute_request_callbacks ++ [cb] },
       [Event.subscribe]) := by
  simp [Attributes_Request_Subscribe, h, h2]

theorem request_when_empty (s : State) (env : Env)
    (atts : List (Option String)) (tag : Nat) (rk pk : Option String)
    (h : atts.isEmpty = true) :
    Attributes_Request s env atts tag rk pk = (false, s, []) := by
  simp [Attributes_Request, h]

theorem request_when_null_key (s : State) (env : Env)
    (atts : List (Option String)) (tag : Nat) (rk pk : Option String)
    (h : rk.isNone = true ∨ pk.isNone = true) :
    Attributes_Request s env atts tag rk pk = (false, s, []) := by
  by_cases he : atts.isEmpty = true
  · simp [Attributes_Request, he]
  · have : (rk.isNone || pk.isNone) = true := by
      rcases h with h | h <;> simp [h]
    simp [Attributes_Request, he, this]

theorem request_when_full (s : State) (env : Env)
    (atts : List (Option String)) (tag : Nat) (rk pk : Option String)
    (h : storeFull s = true) :
    Attributes_Request s env atts tag rk pk = (false, s, []) := by
  by_cases he : atts.isEmpty = true
  · simp [Attributes_Request, he]
  · by_cases hk : (rk.isNone || pk.isNone) = true
    · simp [Attributes_Request, he, hk]
    · simp [Attributes_Request, he, hk,
        subscribe_when_full s env _ h]

theorem request_when_subscribe_refused (s : State) (env : Env)
    (atts : List (Option String)) (tag : Nat) (rk pk : Option String)
    (he : atts.isEmpty = false) (hrk : rk.isNone = false)
    (hpk : pk.isNone = false) (hf : storeFull s = false)
    (hs : env.subscribe_ok = false) :
    Attributes_Request s env atts tag rk pk =
      (false, s, [Event.subscribe]) := by
  simp [Attributes_Request, he, hrk, hpk,
    subscribe_when_refused s env _ hf hs]

theorem request_when_null_id_ptr (s : State) (env : Env)
    (atts : List (Option String)) (tag : Nat) (rk pk : Option String)
    (he : atts.isEmpty = false) (hrk : rk.isNone = false)
    (hpk : pk.isNone = false) (hf : storeFull s = false)
    (hs : env.subscribe_ok = true) (hp : env.request_id_ptr = false) :
    Attributes_Request s env atts tag rk pk =
      (false,
       { s with m_attribute_request_callbacks :=
          s.m_attribute_request_callbacks ++
            [{ attributes := atts, handlerTag := tag }] },
       [Event.subscribe]) := by
  simp [Attributes_Request, he, hrk, hpk,
    subscribe_when_accepted s env _ hf hs, hp]

/-- Applying the back-pointer mutation to a list ending in the freshly
pushed record rewrites exactly that record. -/
theorem setLast_append : ∀ (l : List Attribute_Request_Callback)
    (x : Attribute_Request_Callback)
    (f : Attribute_Request_Callback → Attribute_Request_Callback),
    setLast (l ++ [x]) f = l ++ [f x]
  | [], _, _ => rfl
  | [_], _, _ => rfl
  | a :: b :: t, x, f => by
    have ih := setLast_append (b :: t) x f
    have h1 : setLast ((a :: b :: t) ++ [x]) f
        = a :: setLast ((b :: t) ++ [x]) f := rfl
    rw [h1, ih]
    rfl

theorem request_when_success (s : State) (env : Env)
    (atts : List (Option String)) (tag : Nat) (rk pk : Option String)
    (he : atts.isEmpty = false) (hrk : rk.isNone = false)
    (hpk : pk.isNone = false) (hf : storeFull s = false)
    (hs : env.subscribe_ok = true) (hp : env.request_id_ptr = true) :
    Attributes_Request s env atts tag rk pk =
      (env.send_ok,
       { s with
         request_id_counter := s.request_id_counter + 1,
         m_attribute_request_callbacks :=
          s.m_attribute_request_callbacks ++
            [{ attributes := atts, handlerTag := tag,
               m_request_id := some (s.request_id_counter + 1),
               m_attribute_key := pk,
               m_timer_active := true, m_elapsed := 0 }] },
       [Event.subscribe,
        Event.publish
          (ATTRIBUTE_REQUEST_TOPIC_PREFIX ++ toString (s.request_id_counter + 1))
          (rk.getD "") (String.mk (joinedRequest atts).1)]) := by
  simp only [Attributes_Request, he, hrk, hpk, Bool.false_or,
    subscribe_when_accepted s env _ hf hs, hp]
  simp [setLast_append]

/-! ### Lemmas about the resolution scan and the timeout tick -/

/-- The handler-invocation events a matched record produces. -/
def matchEvents (r : Attribute_Request_Callback) (data : Json) : List Event :=
  match r.m_attribute_key with
  | none => []
  | some key =>
    [Event.handlerCall r.handlerTag
      (if data.containsKey key then data.getKey key else data)]

theorem processList_no_match (rid : Nat) (data : Json) :
    ∀ (l : List Attribute_Request_Callback),
    (∀ r ∈ l, r.m_request_id ≠ some rid) →
    processList l rid data = (l, []) := by
  intro l
  induction l with
  | nil => intro _; rfl
  | cons r rs ih =>
    intro h
    have hr : r.m_request_id ≠ some rid := h r (List.mem_cons_self r rs)
    have hrs := ih (fun x hx => h x (List.mem_cons_of_mem r hx))
    simp [processList, hr, hrs]

theorem processList_first_match (rid : Nat) (data : Json)
    (r : Attribute_Request_Callback) (hid : r.m_request_id = some rid) :
    ∀ (l1 l2 : List Attribute_Request_Callback),
    (∀ x ∈ l1, x.m_request_id ≠ some rid) →
    processList (l1 ++ r :: l2) rid data = (l1 ++ l2, matchEvents r data) := by
  intro l1
  induction l1 with
  | nil =>
    intro l2 _
    cases hk : r.m_attribute_key <;>
      simp [processList, hid, matchEvents, hk]
  | cons a t ih =>
    intro l2 h
    have ha : a.m_request_id ≠ some rid := h a (List.mem_cons_self a t)
    have ht := ih l2 (fun x hx => h x (List.mem_cons_of_mem a hx))
    simp [processList, ha, ht]

theorem processList_sublist (rid : Nat) (data : Json) :
    ∀ (l : List Attribute_Request_Callback),
    (processList l rid data).1.Sublist l := by
  intro l
  induction l with
  | nil => simp [processList]
  | cons r rs ih =>
    by_cases hr : r.m_request_id = some rid
    · cases hk : r.m_attribute_key <;>
        simp [processList, hr, hk, List.sublist_cons_self]
    · simpa [processList, hr] using List.Sublist.cons₂ r ih

theorem tickList_sublist_ids (dt th : Nat) :
    ∀ (l : List Attribute_Request_Callback),
    (idsOf (tickList l dt th).1).Sublist (idsOf l) := by
  intro l
  induction l with
  | nil => simp [tickList, idsOf]
  | cons r rs ih =>
    by_cases hact : r.m_timer_active = true
    · by_cases hexp : th < r.m_elapsed + dt
      · have : (tickList (r :: rs) dt th).1 = (tickList rs dt th).1 := by
          simp [tickList, hact, hexp]
        rw [this]
        exact ih.trans (by
          cases hr : r.m_request_id <;>
            simp [idsOf, List.filterMap_cons, hr, List.sublist_cons_self,
              List.Sublist.refl])
      · have : (tickList (r :: rs) dt th).1 =
            { r with m_elapsed := r.m_elapsed + dt } :: (tickList rs dt th).1 := by
          simp [tickList, hact, hexp]
        rw [this]
        cases hr : r.m_request_id <;>
          simp [idsOf, List.filterMap_cons, hr] <;>
          exact ih
    · have hact2 : r.m_timer_active = false := by
        simpa using hact
      have : (tickList (r :: rs) dt th).1 = r :: (tickList rs dt th).1 := by
        simp [tickList, hact2]
      rw [this]
      cases hr : r.m_request_id <;>
        simp [idsOf, List.filterMap_cons, hr] <;>
        exact ih

theorem tickList_mem (dt th : Nat) :
    ∀ (l : List Attribute_Request_Callback)
    (x : Attribute_Request_Callback), x ∈ (tickList l dt th).1 →
    ∃ y ∈ l, x.m_request_id = y.m_request_id ∧
      x.m_attribute_key = y.m_attribute_key := by
  intro l
  induction l with
  | nil => intro x hx; simp [tickList] at hx
  | cons r rs ih =>
    intro x hx
    by_cases hact : r.m_timer_active = true
    · by_cases hexp : th < r.m_elapsed + dt
      · rw [show (tickList (r :: rs) dt th).1 = (tickList rs dt th).1 by
          simp [tickList, hact, hexp]] at hx
        obtain ⟨y, hy, hids⟩ := ih x hx
        exact ⟨y, List.mem_cons_of_mem r hy, hids⟩
      · rw [show (tickList (r :: rs) dt th).1 =
            { r with m_elapsed := r.m_elapsed + dt } :: (tickList rs dt th).1 by
          simp [tickList, hact, hexp]] at hx
        rcases List.mem_cons.mp hx with hx | hx
        · exact ⟨r, List.mem_cons_self r rs, by simp [hx]⟩
        · obtain ⟨y, hy, hids⟩ := ih x hx
          exact ⟨y, List.mem_cons_of_mem r hy, hids⟩
    · have hact2 : r.m_timer_active = false := by simpa using hact
      rw [show (tickList (r :: rs) dt th).1 = r :: (tickList rs dt th).1 by
        simp [tickList, hact2]] at hx
      rcases List.mem_cons.mp hx with hx | hx
      · exact ⟨r, List.mem_cons_self r rs, by simp [hx]⟩
      · obtain ⟨y, hy, hids⟩ := ih x hx
        exact ⟨y, List.mem_cons_of_mem r hy, hids⟩

theorem tickList_events_handler (dt th : Nat) :
    ∀ (l : List Attribute_Request_Callback),
    ∀ e ∈ (tickList l dt th).2, e.isHandler = true := by
  intro l
  induction l with
  | nil => intro e he; simp [tickList] at he
  | cons r rs ih =>
    intro e he
    by_cases hact : r.m_timer_active = true
    · by_cases hexp : th < r.m_elapsed + dt
      · rw [show (tickList (r :: rs) dt th).2 =
            Event.handlerTimeout r.handlerTag :: (tickList rs dt th).2 by
          simp [tickList, hact, hexp]] at he
        rcases List.mem_cons.mp he with he | he
        · simp [he, Event.isHandler]
        · exact ih e he
      · rw [show (tickList (r :: rs) dt th).2 = (tickList rs dt th).2 by
          simp [tickList, hact, hexp]] at he
        exact ih e he
    · have hact2 : r.m_timer_active = false := by simpa using hact
      rw [show (tickList (r :: rs) dt th).2 = (tickList rs dt th).2 by
        simp [tickList, hact2]] at he
      exact ih e he

theorem tickList_count (dt th : Nat) :
    ∀ (l : List Attribute_Request_Callback),
    (tickList l dt th).2.length + (tickList l dt th).1.length = l.length := by
  intro l
  induction l with
  | nil => simp [tickList]
  | cons r rs ih =>
    by_cases hact : r.m_timer_active = true
    · by_cases hexp : th < r.m_elapsed + dt
      · simp only [show (tickList (r :: rs) dt th).1 = (tickList rs dt th).1 by
            simp [tickList, hact, hexp],
          show (tickList (r :: rs) dt th).2 =
            Event.handlerTimeout r.handlerTag :: (tickList rs dt th).2 by
            simp [tickList, hact, hexp], List.length_cons]
        omega
      · simp only [show (tickList (r :: rs) dt th).1 =
            { r with m_elapsed := r.m_elapsed + dt } :: (tickList rs dt th).1 by
            simp [tickList, hact, hexp],
          show (tickList (r :: rs) dt th).2 = (tickList rs dt th).2 by
            simp [tickList, hact, hexp], List.length_cons]
        omega
    · have hact2 : r.m_timer_active = false := by simpa using hact
      simp only [show (tickList (r :: rs) dt th).1 = r :: (tickList rs dt th).1 by
          simp [tickList, hact2],
        show (tickList (r :: rs) dt th).2 = (tickList rs dt th).2 by
          simp [tickList, hact2], List.length_cons]
      omega

/-! ### The reachable-state invariant -/

theorem idsOf_append (l1 l2 : List Attribute_Request_Callback) :
    idsOf (l1 ++ l2) = idsOf l1 ++ idsOf l2 := by
  simp [idsOf]

theorem inv_of_sublist (s : State) (l : List Attribute_Request_Callback)
    (hsub : (idsOf l).Sublist (idsOf s.m_attribute_request_callbacks))
    (hrec : ∀ x ∈ l, ∃ y ∈ s.m_attribute_request_callbacks,
      x.m_request_id = y.m_request_id ∧ x.m_attribute_key = y.m_attribute_key)
    (hInv : Inv s) :
    Inv { s with m_attribute_request_callbacks := l } := by
  obtain ⟨hnd, hbd, hok⟩ := hInv
  refine ⟨hnd.sublist hsub, ?_, ?_⟩
  · intro k hk
    exact hbd k (hsub.mem hk)
  · intro r hr
    obtain ⟨y, hy, h1, h2⟩ := hrec r hr
    rw [h1, h2]
    exact hok y hy

theorem inv_init (cap : Option Nat) : Inv (initState cap) := by
  refine ⟨?_, ?_, ?_⟩ <;> simp [initState, idsOf, Inv]

theorem bool_not_true {b : Bool} (h : ¬ b = true) : b = false := by
  cases b
  · rfl
  · exact absurd rfl h

theorem idsOf_append_assigned (l : List Attribute_Request_Callback)
    (cb : Attribute_Request_Callback) (k : Nat)
    (h : cb.m_request_id = some k) : idsOf (l ++ [cb]) = idsOf l ++ [k] := by
  simp [idsOf, List.filterMap_append, h]

theorem idsOf_append_unassigned (l : List Attribute_Request_Callback)
    (cb : Attribute_Request_Callback)
    (h : cb.m_request_id = none) : idsOf (l ++ [cb]) = idsOf l := by
  simp [idsOf, List.filterMap_append, h]

theorem inv_insert_assigned (s : State) (cb : Attribute_Request_Callback)
    (hid : cb.m_request_id = some (s.request_id_counter + 1))
    (hkey : cb.m_attribute_key.isSome = true) (hInv : Inv s) :
    Inv { s with
      request_id_counter := s.request_id_counter + 1,
      m_attribute_request_callbacks :=
        s.m_attribute_request_callbacks ++ [cb] } := by
  obtain ⟨hnd, hbd, hok⟩ := hInv
  refine ⟨?_, ?_, ?_⟩
  · rw [idsOf_append_assigned s.m_attribute_request_callbacks cb _ hid]
    refine List.Nodup.append hnd (List.nodup_singleton _) ?_
    intro k hk hk2
    have := (hbd k hk).2
    simp at hk2
    omega
  · intro k hk
    rw [idsOf_append_assigned s.m_attribute_request_callbacks cb _ hid] at hk
    rcases List.mem_append.mp hk with hk | hk
    · have := hbd k hk
      exact ⟨this.1, Nat.le_succ_of_le this.2⟩
    · simp at hk
      subst hk
      exact ⟨Nat.succ_le_succ (Nat.zero_le _), Nat.le_refl _⟩
  · intro r hr
    rcases List.mem_append.mp hr with hr | hr
    · exact hok r hr
    · simp at hr
      subst hr
      rw [hid, hkey]
      rfl

theorem inv_insert_unassigned (s : State) (cb : Attribute_Request_Callback)
    (hid : cb.m_request_id = none) (hkey : cb.m_attribute_key = none)
    (hInv : Inv s) :
    Inv { s with
      m_attribute_request_callbacks :=
        s.m_attribute_request_callbacks ++ [cb] } := by
  obtain ⟨hnd, hbd, hok⟩ := hInv
  refine ⟨?_, ?_, ?_⟩
  · rw [idsOf_append_unassigned s.m_attribute_request_callbacks cb hid]
    exact hnd
  · intro k hk
    rw [idsOf_append_unassigned s.m_attribute_request_callbacks cb hid] at hk
    exact hbd k hk
  · intro r hr
    rcases List.mem_append.mp hr with hr | hr
    · exact hok r hr
    · simp at hr
      subst hr
      rw [hid, hkey]
      rfl

theorem inv_issue (s : State) (env : Env) (atts : List (Option String))
    (tag : Nat) (rk pk : Option String) (hInv : Inv s) :
    Inv (Attributes_Request s env atts tag rk pk).2.1 := by
  by_cases he : atts.isEmpty = true
  · rw [request_when_empty s env atts tag rk pk he]; exact hInv
  · replace he := bool_not_true he
    by_cases hrk : rk.isNone = true
    · rw [request_when_null_key s env atts tag rk pk (Or.inl hrk)]; exact hInv
    · replace hrk := bool_not_true hrk
      by_cases hpk : pk.isNone = true
      · rw [request_when_null_key s env atts tag rk pk (Or.inr hpk)]; exact hInv
      · replace hpk := bool_not_true hpk
        by_cases hf : storeFull s = true
        · rw [request_when_full s env atts tag rk pk hf]; exact hInv
        · replace hf := bool_not_true hf
          by_cases hs : env.subscribe_ok = true
          · by_cases hp : env.request_id_ptr = true
            · rw [request_when_success s env atts tag rk pk he hrk hpk hf hs hp]
              refine inv_insert_assigned s _ rfl ?_ hInv
              cases hpk2 : pk with
              | none => rw [hpk2] at hpk; simp at hpk
              | some v => rfl
            · replace hp := bool_not_true hp
              rw [request_when_null_id_ptr s env atts tag rk pk he hrk hpk hf hs hp]
              exact inv_insert_unassigned s _ rfl rfl hInv
          · replace hs := bool_not_true hs
            rw [request_when_subscribe_refused s env atts tag rk pk he hrk hpk hf hs]
            exact hInv

theorem inv_resolve (s : State) (topic : String) (data : Json)
    (hInv : Inv s) : Inv (Process_Json_Response s topic data).1 := by
  unfold Process_Json_Response
  set rid := parseRequestId ATTRIBUTE_RESPONSE_TOPIC topic with hrid
  have hsub := processList_sublist rid data s.m_attribute_request_callbacks
  have base : Inv { s with m_attribute_request_callbacks :=
      (processList s.m_attribute_request_callbacks rid data).1 } := by
    refine inv_of_sublist s _ (hsub.filterMap _) ?_ hInv
    intro x hx
    exact ⟨x, hsub.mem hx, rfl, rfl⟩
  by_cases hemp :
      (processList s.m_attribute_request_callbacks rid data).1.isEmpty = true
  · simp only [hemp, if_true]
    have hnil : (processList s.m_attribute_request_callbacks rid data).1 = [] :=
      List.isEmpty_iff.mp hemp
    simp only [Attributes_Request_Unsubscribe]
    rw [← hnil]
    exact base
  · simp only [hemp]
    simpa using base

theorem inv_tick (s : State) (dt th : Nat) (hInv : Inv s) :
    Inv (tick s dt th).1 := by
  unfold tick
  have hsub := tickList_sublist_ids dt th s.m_attribute_request_callbacks
  have base : Inv { s with m_attribute_request_callbacks :=
      (tickList s.m_attribute_request_callbacks dt th).1 } := by
    refine inv_of_sublist s _ hsub ?_ hInv
    intro x hx
    exact tickList_mem dt th s.m_attribute_request_callbacks x hx
  by_cases hemp : ((tickList s.m_attribute_request_callbacks dt th).1.isEmpty &&
      !(tickList s.m_attribute_request_callbacks dt th).2.isEmpty) = true
  · simp only [hemp, if_true]
    have hnil : (tickList s.m_attribute_request_callbacks dt th).1 = [] :=
      List.isEmpty_iff.mp (Bool.and_elim_left hemp)
    simp only [Attributes_Request_Unsubscribe]
    rw [← hnil]
    exact base
  · simp only [hemp]
    simpa using base

theorem inv_unsub (s : State) (_hInv : Inv s) :
    Inv (Attributes_Request_Unsubscribe s).1 := by
  simp only [Attributes_Request_Unsubscribe]
  exact ⟨by simp [idsOf], by simp [idsOf], by simp⟩

theorem inv_applyOp (s : State) (op : Op) (hInv : Inv s) :
    Inv (applyOp s op) := by
  cases op with
  | issue env atts tag rk pk => exact inv_issue s env atts tag rk pk hInv
  | resolve topic data => exact inv_resolve s topic data hInv
  | tickOp dt th => exact inv_tick s dt th hInv
  | unsubscribeAll => exact inv_unsub s hInv

theorem inv_runOps (cap : Option Nat) (ops : List Op) :
    Inv (runOps cap ops) := by
  unfold runOps
  induction ops using List.reverseRecOn with
  | nil => exact inv_init cap
  | append_singleton t op ih =>
    rw [List.foldl_append]
    exact inv_applyOp _ op ih

/-- Environment whose subscribe callback fails and whose other
capabilities succeed. -/
def subFailEnv : Env :=
  { subscribe_ok := false, send_ok := true, request_id_ptr := true }

/-- Environment whose get-request-id callback returns a null pointer and
whose other capabilities succeed. -/
def nullPtrEnv : Env :=
  { subscribe_ok := true, send_ok := true, request_id_ptr := false }

/-! ### Claim theorems -/

/-- C2: the claim states that every write of the key-joining loop stays
within the bounds of the buffer whose size was computed beforehand, the
terminating null character included.  The code computes the buffer size as
the sum of the key lengths plus one delimiter per key, which is exactly
the length of the joined string without its terminating null: at keys
`["a","b"]` the computed size is 4, the joined content is `"a,b,"` with no
truncated key and a delimiter after every key, but the final `strncat`
writes its terminating null byte at index 4 of the 4-byte buffer — an
out-of-bounds write, since the valid indices are exactly those strictly
below the computed size. -/
theorem c2_final_null_write_out_of_bounds :
    computedSize [some "a", some "b"] = 4 ∧
    (joinedRequest [some "a", some "b"]).1 = ['a', ',', 'b', ','] ∧
    (joinedRequest [some "a", some "b"]).2 = 4 ∧
    ¬ (joinedRequest [some "a", some "b"]).2
        < computedSize [some "a", some "b"] := by
  exact ⟨rfl, rfl, rfl, by decide⟩

/-- C4: a client request for keys `["a","b"]` publishes the payload field
`clientKeys = "a,b,"` to the per-id request topic; a response document
`{"client":{"a":1}}` for that id delivers the narrowed sub-document
`{"a":1}` to the handler; a response document `{"a":1}` without the
`client` wrapper delivers the same document unchanged. -/
theorem c4_round_trip :
    (Client_Attributes_Request (initState none) allOkEnv
        [some "a", some "b"] 7).2.2
      = [Event.subscribe,
         Event.publish "v1/devices/me/attributes/request/1" "clientKeys"
           "a,b,"] ∧
    (Process_Json_Response
        (Client_Attributes_Request (initState none) allOkEnv
          [some "a", some "b"] 7).2.1
        "v1/devices/me/attributes/response/1"
        (Json.obj [("client", Json.obj [("a", Json.num 1)])])).2
      = [Event.handlerCall 7 (Json.obj [("a", Json.num 1)]),
         Event.unsubscribe] ∧
    (Process_Json_Response
        (Client_Attributes_Request (initState none) allOkEnv
          [some "a", some "b"] 7).2.1
        "v1/devices/me/attributes/response/1"
        (Json.obj [("a", Json.num 1)])).2
      = [Event.handlerCall 7 (Json.obj [("a", Json.num 1)]),
         Event.unsubscribe] := by
  exact ⟨rfl, rfl, rfl⟩

/-- C3, counterexample: with one request already pending (the store is
non-empty and nothing has been resolved), a second successful issue calls
the subscribe callback again — refuting the claim that no further
subscribe calls are made while requests are already pending, and that a
subscribe is issued only on the empty-to-non-empty transition. -/
theorem c3_counterexample :
    (Client_Attributes_Request (initState none) allOkEnv [some "a"] 0).1
      = true ∧
    ((Client_Attributes_Request (initState none) allOkEnv [some "a"] 0
        ).2.1.m_attribute_request_callbacks).length = 1 ∧
    (((Client_Attributes_Request
        (Client_Attributes_Request (initState none) allOkEnv [some "a"] 0).2.1
        allOkEnv [some "b"] 1).2.2).filter Event.isSubscribe).length = 1 := by
  exact ⟨rfl, rfl, rfl⟩

/-- C7, counterexample: an issue whose key list is `[NULL]` — a null key
among the requested keys — is not rejected: it subscribes, inserts a
record and publishes (with the null key merely skipped from the joined
payload), refuting the claim that a null key among the requested keys is
rejected synchronously with no side effects. -/
theorem c7_counterexample :
    (Client_Attributes_Request (initState none) allOkEnv [none] 3).1
      = true ∧
    (Client_Attributes_Request (initState none) allOkEnv [none] 3
      ).2.1.m_attribute_request_callbacks.length = 1 ∧
    ((Client_Attributes_Request (initState none) allOkEnv [none] 3
      ).2.2.filter Event.isPublish).length = 1 := by
  exact ⟨rfl, rfl, rfl⟩

/-- C5: whenever the subscribe callback fails, `Attributes_Request`
returns a not-sent result, leaves the whole state (store and counter)
exactly as it was, and publishes nothing. -/
theorem c5_subscribe_failure_no_partial_state (s : State) (env : Env)
    (atts : List (Option String)) (tag : Nat) (rk pk : Option String)
    (h : env.subscribe_ok = false) :
    (Attributes_Request s env atts tag rk pk).1 = false ∧
    (Attributes_Request s env atts tag rk pk).2.1 = s ∧
    (Attributes_Request s env atts tag rk pk).2.2.filter Event.isPublish
      = [] := by
  by_cases he : atts.isEmpty = true
  · rw [request_when_empty s env atts tag rk pk he]; exact ⟨rfl, rfl, rfl⟩
  · replace he := bool_not_true he
    by_cases hrk : rk.isNone = true
    · rw [request_when_null_key s env atts tag rk pk (Or.inl hrk)]
      exact ⟨rfl, rfl, rfl⟩
    · replace hrk := bool_not_true hrk
      by_cases hpk : pk.isNone = true
      · rw [request_when_null_key s env atts tag rk pk (Or.inr hpk)]
        exact ⟨rfl, rfl, rfl⟩
      · replace hpk := bool_not_true hpk
        by_cases hf : storeFull s = true
        · rw [request_when_full s env atts tag rk pk hf]
          exact ⟨rfl, rfl, rfl⟩
        · replace hf := bool_not_true hf
          rw [request_when_subscribe_refused s env atts tag rk pk
            he hrk hpk hf h]
          exact ⟨rfl, rfl, rfl⟩

/-- C5 witness: the theorem applied to the initial dynamic store, a
single-key request and an environment whose subscribe callback fails. -/
theorem c5_witness :
    subFailEnv.subscribe_ok = false ∧
    ((Attributes_Request (initState none) subFailEnv [some "a"] 0
        (some CLIENT_REQUEST_KEYS) (some CLIENT_RESPONSE_KEY)).1 = false ∧
     (Attributes_Request (initState none) subFailEnv [some "a"] 0
        (some CLIENT_REQUEST_KEYS) (some CLIENT_RESPONSE_KEY)).2.1
       = initState none ∧
     (Attributes_Request (initState none) subFailEnv [some "a"] 0
        (some CLIENT_REQUEST_KEYS) (some CLIENT_RESPONSE_KEY)).2.2.filter
          Event.isPublish = []) :=
  ⟨rfl, c5_subscribe_failure_no_partial_state (initState none) subFailEnv
    [some "a"] 0 (some CLIENT_REQUEST_KEYS) (some CLIENT_RESPONSE_KEY) rfl⟩

/-- C7, amended: an empty key list or a null request-key or response-key
pointer is rejected synchronously with a failure result, no state change
and no transport call; a null key among the requested keys, however, is
not rejected but skipped during serialization of the joined payload. -/
theorem c7_amended_input_errors (s : State) (env : Env)
    (atts : List (Option String)) (tag : Nat) (rk pk : Option String)
    (h : atts.isEmpty = true ∨ rk = none ∨ pk = none) :
    ((Attributes_Request s env atts tag rk pk).1 = false ∧
     (Attributes_Request s env atts tag rk pk).2.1 = s ∧
     (Attributes_Request s env atts tag rk pk).2.2 = []) ∧
    (∀ atts2 : List (Option String),
      (joinedRequest (none :: atts2)).1 = (joinedRequest atts2).1) := by
  constructor
  · rcases h with h | h | h
    · rw [request_when_empty s env atts tag rk pk h]; exact ⟨rfl, rfl, rfl⟩
    · rw [request_when_null_key s env atts tag rk pk
        (Or.inl (by simp [h]))]
      exact ⟨rfl, rfl, rfl⟩
    · rw [request_when_null_key s env atts tag rk pk
        (Or.inr (by simp [h]))]
      exact ⟨rfl, rfl, rfl⟩
  · intro atts2
    have hsz : computedSize (none :: atts2) = computedSize atts2 := by
      simp [computedSize, attSize]
    simp [joinedRequest, catLoop, hsz]

/-- C7 witness: the amended theorem applied to the empty key list. -/
theorem c7_amended_witness :
    (([] : List (Option String)).isEmpty = true ∨
      (some CLIENT_REQUEST_KEYS) = none ∨ (some CLIENT_RESPONSE_KEY) = none) ∧
    (((Attributes_Request (initState none) allOkEnv [] 0
        (some CLIENT_REQUEST_KEYS) (some CLIENT_RESPONSE_KEY)).1 = false ∧
      (Attributes_Request (initState none) allOkEnv [] 0
        (some CLIENT_REQUEST_KEYS) (some CLIENT_RESPONSE_KEY)).2.1
        = initState none ∧
      (Attributes_Request (initState none) allOkEnv [] 0
        (some CLIENT_REQUEST_KEYS) (some CLIENT_RESPONSE_KEY)).2.2 = []) ∧
     (∀ atts2 : List (Option String),
       (joinedRequest (none :: atts2)).1 = (joinedRequest atts2).1)) :=
  ⟨Or.inl rfl, c7_amended_input_errors (initState none) allOkEnv [] 0
    (some CLIENT_REQUEST_KEYS) (some CLIENT_RESPONSE_KEY) (Or.inl rfl)⟩

/-- C8: in bounded mode, an issue made while the store already holds its
maximum number of records fails with the state unchanged and no transport
call at all (no subscribe, no publish). -/
theorem c8_capacity_full_clean_failure (s : State) (env : Env)
    (atts : List (Option String)) (tag : Nat) (rk pk : Option String)
    (cap : Nat) (hcap : s.capacity = some cap)
    (hlen : cap ≤ s.m_attribute_request_callbacks.length) :
    (Attributes_Request s env atts tag rk pk).1 = false ∧
    (Attributes_Request s env atts tag rk pk).2.1 = s ∧
    (Attributes_Request s env atts tag rk pk).2.2 = [] := by
  have hf : storeFull s = true := by
    simp only [storeFull, hcap]
    simpa using Nat.lt_succ_of_le hlen
  rw [request_when_full s env atts tag rk pk hf]
  exact ⟨rfl, rfl, rfl⟩

/-- The state after one successful issue into a bounded store of
capacity 1. -/
def capOneAfterFirst : State :=
  (Client_Attributes_Request (initState (some 1)) allOkEnv [some "a"] 1).2.1

/-- C8 witness: with capacity 1, a first request succeeds; the theorem
applied to the resulting full store shows the second request fails with
the store unchanged and no second publish. -/
theorem c8_witness :
    (Client_Attributes_Request (initState (some 1)) allOkEnv [some "a"] 1).1
      = true ∧
    capOneAfterFirst.capacity = some 1 ∧
    1 ≤ capOneAfterFirst.m_attribute_request_callbacks.length ∧
    ((Attributes_Request capOneAfterFirst allOkEnv [some "b"] 2
        (some CLIENT_REQUEST_KEYS) (some CLIENT_RESPONSE_KEY)).1 = false ∧
     (Attributes_Request capOneAfterFirst allOkEnv [some "b"] 2
        (some CLIENT_REQUEST_KEYS) (some CLIENT_RESPONSE_KEY)).2.1
       = capOneAfterFirst ∧
     (Attributes_Request capOneAfterFirst allOkEnv [some "b"] 2
        (some CLIENT_REQUEST_KEYS) (some CLIENT_RESPONSE_KEY)).2.2 = []) :=
  ⟨rfl, rfl, by decide,
   c8_capacity_full_clean_failure capOneAfterFirst allOkEnv [some "b"] 2
     (some CLIENT_REQUEST_KEYS) (some CLIENT_RESPONSE_KEY) 1 rfl (by decide)⟩

/-- C10: when the get-request-id capability returns a null pointer during
an otherwise well-formed issue, the call returns false and publishes
nothing, but the subscribe has already been performed and the callback
record has already been inserted, so the store has grown by one record
that carries no request id (and the shared counter is untouched). -/
theorem c10_null_request_id_pointer_partial_insert (s : State) (env : Env)
    (atts : List (Option String)) (tag : Nat) (rk pk : Option String)
    (hs : env.subscribe_ok = true) (hp : env.request_id_ptr = false)
    (he : atts.isEmpty = false) (hrk : rk.isNone = false)
    (hpk : pk.isNone = false) (hf : storeFull s = false) :
    (Attributes_Request s env atts tag rk pk).1 = false ∧
    (Attributes_Request s env atts tag rk pk).2.2.filter Event.isPublish
      = [] ∧
    (Attributes_Request s env atts tag rk pk).2.2.filter Event.isSubscribe
      = [Event.subscribe] ∧
    (Attributes_Request s env atts tag rk pk).2.1.m_attribute_request_callbacks
      = s.m_attribute_request_callbacks ++
          [{ attributes := atts, handlerTag := tag }] ∧
    ({ attributes := atts, handlerTag := tag } :
        Attribute_Request_Callback).m_request_id = none ∧
    (Attributes_Request s env atts tag rk pk).2.1.request_id_counter
      = s.request_id_counter := by
  rw [request_when_null_id_ptr s env atts tag rk pk he hrk hpk hf hs hp]
  exact ⟨rfl, rfl, rfl, rfl, rfl, rfl⟩

/-- C10 witness: the theorem applied to the initial dynamic store, a
single-key request and an environment whose get-request-id callback
returns a null pointer. -/
theorem c10_witness :
    nullPtrEnv.subscribe_ok = true ∧ nullPtrEnv.request_id_ptr = false ∧
    ([some "a"] : List (Option String)).isEmpty = false ∧
    storeFull (initState none) = false ∧
    ((Attributes_Request (initState none) nullPtrEnv [some "a"] 5
        (some CLIENT_REQUEST_KEYS) (some CLIENT_RESPONSE_KEY)).1 = false ∧
     (Attributes_Request (initState none) nullPtrEnv [some "a"] 5
        (some CLIENT_REQUEST_KEYS) (some CLIENT_RESPONSE_KEY)).2.2.filter
          Event.isPublish = [] ∧
     (Attributes_Request (initState none) nullPtrEnv [some "a"] 5
        (some CLIENT_REQUEST_KEYS) (some CLIENT_RESPONSE_KEY)).2.2.filter
          Event.isSubscribe = [Event.subscribe] ∧
     (Attributes_Request (initState none) nullPtrEnv [some "a"] 5
        (some CLIENT_REQUEST_KEYS) (some CLIENT_RESPONSE_KEY)
        ).2.1.m_attribute_request_callbacks
       = (initState none).m_attribute_request_callbacks ++
           [{ attributes := [some "a"], handlerTag := 5 }] ∧
     ({ attributes := [some "a"], handlerTag := 5 } :
         Attribute_Request_Callback).m_request_id = none ∧
     (Attributes_Request (initState none) nullPtrEnv [some "a"] 5
        (some CLIENT_REQUEST_KEYS) (some CLIENT_RESPONSE_KEY)
        ).2.1.request_id_counter = (initState none).request_id_counter) :=
  ⟨rfl, rfl, rfl, rfl,
   c10_null_request_id_pointer_partial_insert (initState none) nullPtrEnv
     [some "a"] 5 (some CLIENT_REQUEST_KEYS) (some CLIENT_RESPONSE_KEY)
     rfl rfl rfl rfl rfl rfl⟩

theorem processList_events_handler (rid : Nat) (data : Json) :
    ∀ (l : List Attribute_Request_Callback),
    ∀ e ∈ (processList l rid data).2, e.isHandler = true := by
  intro l
  induction l with
  | nil => intro e he; simp [processList] at he
  | cons r rs ih =>
    intro e he
    by_cases hr : r.m_request_id = some rid
    · cases hk : r.m_attribute_key with
      | none => simp [processList, hr, hk] at he
      | some key =>
        rw [show (processList (r :: rs) rid data).2 =
            [Event.handlerCall r.handlerTag
              (if data.containsKey key then data.getKey key else data)] by
          simp [processList, hr, hk]] at he
        simp at he
        simp [he, Event.isHandler]
    · rw [show (processList (r :: rs) rid data).2
          = (processList rs rid data).2 by simp [processList, hr]] at he
      exact ih e he

theorem resolve_unmatched_noop (s : State) (topic : String) (data : Json)
    (h : ∀ r ∈ s.m_attribute_request_callbacks,
      r.m_request_id ≠ some (parseRequestId ATTRIBUTE_RESPONSE_TOPIC topic)) :
    (Process_Json_Response s topic data).1.m_attribute_request_callbacks
      = s.m_attribute_request_callbacks ∧
    (Process_Json_Response s topic data).2.filter Event.isHandler = [] := by
  simp only [Process_Json_Response]
  rw [processList_no_match (parseRequestId ATTRIBUTE_RESPONSE_TOPIC topic)
    data s.m_attribute_request_callbacks h]
  by_cases hemp : s.m_attribute_request_callbacks.isEmpty = true
  · have hnil := List.isEmpty_iff.mp hemp
    simp [hemp, hnil, Attributes_Request_Unsubscribe, Event.isHandler]
  · replace hemp := bool_not_true hemp
    simp [hemp]

/-- C9: an inbound response whose topic-embedded id matches no pending
record leaves the store untouched (same list of records, hence same
cardinality and contents) and invokes no handler. -/
theorem c9_unmatched_response_noop (s : State) (topic : String) (data : Json)
    (h : ∀ r ∈ s.m_attribute_request_callbacks,
      r.m_request_id ≠ some (parseRequestId ATTRIBUTE_RESPONSE_TOPIC topic)) :
    (Process_Json_Response s topic data).1.m_attribute_request_callbacks
      = s.m_attribute_request_callbacks ∧
    (Process_Json_Response s topic data).2.filter Event.isHandler = [] :=
  resolve_unmatched_noop s topic data h

/-- C9 witness: the theorem applied to a store holding one pending record
with id 1 and a response on the topic carrying id 2. -/
theorem c9_witness :
    (∀ r ∈ (Client_Attributes_Request (initState none) allOkEnv [some "a"] 4
        ).2.1.m_attribute_request_callbacks,
      r.m_request_id ≠ some (parseRequestId ATTRIBUTE_RESPONSE_TOPIC
        "v1/devices/me/attributes/response/2")) ∧
    ((Process_Json_Response
        (Client_Attributes_Request (initState none) allOkEnv [some "a"] 4).2.1
        "v1/devices/me/attributes/response/2"
        (Json.obj [])).1.m_attribute_request_callbacks
      = (Client_Attributes_Request (initState none) allOkEnv [some "a"] 4
          ).2.1.m_attribute_request_callbacks ∧
     (Process_Json_Response
        (Client_Attributes_Request (initState none) allOkEnv [some "a"] 4).2.1
        "v1/devices/me/attributes/response/2"
        (Json.obj [])).2.filter Event.isHandler = []) :=
  ⟨by decide,
   c9_unmatched_response_noop
     (Client_Attributes_Request (initState none) allOkEnv [some "a"] 4).2.1
     "v1/devices/me/attributes/response/2" (Json.obj []) (by decide)⟩

/-- C3, amended: the code does not track whether it is already subscribed —
every issue that passes the input and capacity checks calls the subscribe
callback exactly once, relying on transport-level idempotence, even while
other requests are pending; the unsubscribe half of the claim holds: when a
resolution empties a previously non-empty store exactly one unsubscribe
call is issued, and no unsubscribe is issued while records remain. -/
theorem c3_amended_subscribe_per_issue (s : State) (env : Env)
    (atts : List (Option String)) (tag : Nat) (rk pk : Option String)
    (topic : String) (data : Json)
    (he : atts.isEmpty = false) (hrk : rk.isNone = false)
    (hpk : pk.isNone = false) (hf : storeFull s = false) :
    ((Attributes_Request s env atts tag rk pk).2.2.filter
        Event.isSubscribe).length = 1 ∧
    (s.m_attribute_request_callbacks ≠ [] →
      (Process_Json_Response s topic data).1.m_attribute_request_callbacks
        = [] →
      ((Process_Json_Response s topic data).2.filter
          Event.isUnsubscribe).length = 1) ∧
    ((Process_Json_Response s topic data).1.m_attribute_request_callbacks
        ≠ [] →
      ((Process_Json_Response s topic data).2.filter
          Event.isUnsubscribe).length = 0) := by
  refine ⟨?_, ?_, ?_⟩
  · by_cases hs : env.subscribe_ok = true
    · by_cases hp : env.request_id_ptr = true
      · rw [request_when_success s env atts tag rk pk he hrk hpk hf hs hp]
        rfl
      · replace hp := bool_not_true hp
        rw [request_when_null_id_ptr s env atts tag rk pk he hrk hpk hf hs hp]
        rfl
    · replace hs := bool_not_true hs
      rw [request_when_subscribe_refused s env atts tag rk pk he hrk hpk hf hs]
      rfl
  · intro _ hres
    unfold Process_Json_Response at hres ⊢
    by_cases hemp : (processList s.m_attribute_request_callbacks
        (parseRequestId ATTRIBUTE_RESPONSE_TOPIC topic) data).1.isEmpty = true
    · simp only [hemp, if_true, Attributes_Request_Unsubscribe,
        List.filter_append]
      rw [show (List.filter Event.isUnsubscribe [Event.unsubscribe])
          = [Event.unsubscribe] from rfl]
      rw [List.filter_eq_nil_iff.mpr (fun e hee => by
        have := processList_events_handler
          (parseRequestId ATTRIBUTE_RESPONSE_TOPIC topic) data
          s.m_attribute_request_callbacks e hee
        cases e <;> simp_all [Event.isHandler, Event.isUnsubscribe])]
      rfl
    · simp only [hemp, if_false] at hres
      replace hemp := bool_not_true hemp
      simp only [hemp] at hres ⊢
      exact absurd hres (List.isEmpty_iff.not.mp (by simp [hemp]))
  · intro hres
    unfold Process_Json_Response at hres ⊢
    by_cases hemp : (processList s.m_attribute_request_callbacks
        (parseRequestId ATTRIBUTE_RESPONSE_TOPIC topic) data).1.isEmpty = true
    · simp only [hemp, if_true, Attributes_Request_Unsubscribe] at hres
      simp at hres
    · replace hemp := bool_not_true hemp
      simp only [hemp, Bool.false_eq_true, if_false]
      rw [List.filter_eq_nil_iff.mpr (fun e hee => by
        have := processList_events_handler
          (parseRequestId ATTRIBUTE_RESPONSE_TOPIC topic) data
          s.m_attribute_request_callbacks e hee
        cases e <;> simp_all [Event.isHandler, Event.isUnsubscribe])]
      rfl

/-- C3 amended witness: first issue from the empty store (one subscribe),
and resolving the single pending request empties the store with exactly
one unsubscribe. -/
theorem c3_amended_witness :
    (([some "a"] : List (Option String)).isEmpty = false ∧
     storeFull (Client_Attributes_Request (initState none) allOkEnv
       [some "a"] 4).2.1 = false) ∧
    (((Attributes_Request
        (Client_Attributes_Request (initState none) allOkEnv [some "a"] 4).2.1
        allOkEnv [some "b"] 5 (some CLIENT_REQUEST_KEYS)
        (some CLIENT_RESPONSE_KEY)).2.2.filter Event.isSubscribe).length
      = 1 ∧
     ((Client_Attributes_Request (initState none) allOkEnv [some "a"] 4
        ).2.1.m_attribute_request_callbacks ≠ [] →
      (Process_Json_Response
        (Client_Attributes_Request (initState none) allOkEnv [some "a"] 4).2.1
        "v1/devices/me/attributes/response/1"
        (Json.obj [])).1.m_attribute_request_callbacks = [] →
      ((Process_Json_Response
        (Client_Attributes_Request (initState none) allOkEnv [some "a"] 4).2.1
        "v1/devices/me/attributes/response/1"
        (Json.obj [])).2.filter Event.isUnsubscribe).length = 1) ∧
     ((Process_Json_Response
        (Client_Attributes_Request (initState none) allOkEnv [some "a"] 4).2.1
        "v1/devices/me/attributes/response/1"
        (Json.obj [])).1.m_attribute_request_callbacks ≠ [] →
      ((Process_Json_Response
        (Client_Attributes_Request (initState none) allOkEnv [some "a"] 4).2.1
        "v1/devices/me/attributes/response/1"
        (Json.obj [])).2.filter Event.isUnsubscribe).length = 0)) :=
  ⟨⟨rfl, rfl⟩,
   c3_amended_subscribe_per_issue
     (Client_Attributes_Request (initState none) allOkEnv [some "a"] 4).2.1
     allOkEnv [some "b"] 5 (some CLIENT_REQUEST_KEYS)
     (some CLIENT_RESPONSE_KEY)
     "v1/devices/me/attributes/response/1" (Json.obj []) rfl rfl rfl rfl⟩

/-- The wrap modulus of the shared request-id counter: the source stores
the counter in a `size_t` (modelled at the common 64-bit width), and the
pre-increment `++request_id` at line 253 is unsigned arithmetic that wraps
on overflow. -/
def SIZE_T_WRAP : Nat := 2 ^ 64

/-- `Attributes_Request` (lines 176-260) with the shared counter at its
machine width: identical to `Attributes_Request` except that the
pre-increment of the `size_t` counter (line 253) wraps modulo
`SIZE_T_WRAP` on overflow.  The uniqueness claim about pending ids is
sensitive to the wrap, so it is settled against this variant. -/
def Attributes_Request_sizet (s : State) (env : Env)
    (attributes : List (Option String)) (handlerTag : Nat)
    (attribute_request_key attribute_response_key : Option String) :
    Bool × State × List Event :=
  if attributes.isEmpty then (false, s, [])
  else if attribute_request_key.isNone || attribute_response_key.isNone then
    (false, s, [])
  else
    let sub := Attributes_Request_Subscribe s env
      { attributes := attributes, handlerTag := handlerTag }
    if sub.1 = false then (false, sub.2.1, sub.2.2)
    else
      let s1 := sub.2.1
      let joined := joinedRequest attributes
      if env.request_id_ptr = false then (false, s1, sub.2.2)
      else
        let rid := (s1.request_id_counter + 1) % SIZE_T_WRAP
        let s2 : State :=
          { s1 with
            request_id_counter := rid,
            m_attribute_request_callbacks :=
              setLast s1.m_attribute_request_callbacks
                (fun r =>
                  { r with
                    m_request_id := some rid,
                    m_attribute_key := attribute_response_key,
                    m_timer_active := true,
                    m_elapsed := 0 }) }
        (env.send_ok, s2,
         sub.2.2 ++
          [Event.publish (ATTRIBUTE_REQUEST_TOPIC_PREFIX ++ toString rid)
            (attribute_request_key.getD "") (String.mk joined.1)])

/-- The step function over the wrapped-counter issue path (the other three
operations do not touch the counter and are shared). -/
def applyOpSizet (s : State) : Op → State
  | Op.issue env atts tag rk pk =>
    (Attributes_Request_sizet s env atts tag rk pk).2.1
  | Op.resolve topic data => (Process_Json_Response s topic data).1
  | Op.tickOp dt th => (tick s dt th).1
  | Op.unsubscribeAll => (Attributes_Request_Unsubscribe s).1

def runOpsSizet (cap : Option Nat) (ops : List Op) : State :=
  ops.foldl applyOpSizet (initState cap)

theorem runOpsSizet_append (cap : Option Nat) (ops : List Op) (op : Op) :
    runOpsSizet cap (ops ++ [op]) = applyOpSizet (runOpsSizet cap ops) op := by
  simp [runOpsSizet, List.foldl_append]

/-! Branch lemmas for the wrapped-counter issue path, mirroring those of
`Attributes_Request`. -/

theorem sizet_when_empty (s : State) (env : Env)
    (atts : List (Option String)) (tag : Nat) (rk pk : Option String)
    (h : atts.isEmpty = true) :
    Attributes_Request_sizet s env atts tag rk pk = (false, s, []) := by
  simp [Attributes_Request_sizet, h]

theorem sizet_when_null_key (s : State) (env : Env)
    (atts : List (Option String)) (tag : Nat) (rk pk : Option String)
    (h : rk.isNone = true ∨ pk.isNone = true) :
    Attributes_Request_sizet s env atts tag rk pk = (false, s, []) := by
  by_cases he : atts.isEmpty = true
  · simp [Attributes_Request_sizet, he]
  · have : (rk.isNone || pk.isNone) = true := by
      rcases h with h | h <;> simp [h]
    simp [Attributes_Request_sizet, he, this]

theorem sizet_when_full (s : State) (env : Env)
    (atts : List (Option String)) (tag : Nat) (rk pk : Option String)
    (h : storeFull s = true) :
    Attributes_Request_sizet s env atts tag rk pk = (false, s, []) := by
  by_cases he : atts.isEmpty = true
  · simp [Attributes_Request_sizet, he]
  · by_cases hk : (rk.isNone || pk.isNone) = true
    · simp [Attributes_Request_sizet, he, hk]
    · simp [Attributes_Request_sizet, he, hk,
        subscribe_when_full s env _ h]

theorem sizet_when_subscribe_refused (s : State) (env : Env)
    (atts : List (Option String)) (tag : Nat) (rk pk : Option String)
    (he : atts.isEmpty = false) (hrk : rk.isNone = false)
    (hpk : pk.isNone = false) (hf : storeFull s = false)
    (hs : env.subscribe_ok = false) :
    Attributes_Request_sizet s env atts tag rk pk =
      (false, s, [Event.subscribe]) := by
  simp [Attributes_Request_sizet, he, hrk, hpk,
    subscribe_when_refused s env _ hf hs]

theorem sizet_when_null_id_ptr (s : State) (env : Env)
    (atts : List (Option String)) (tag : Nat) (rk pk : Option String)
    (he : atts.isEmpty = false) (hrk : rk.isNone = false)
    (hpk : pk.isNone = false) (hf : storeFull s = false)
    (hs : env.subscribe_ok = true) (hp : env.request_id_ptr = false) :
    Attributes_Request_sizet s env atts tag rk pk =
      (false,
       { s with m_attribute_request_callbacks :=
          s.m_attribute_request_callbacks ++
            [{ attributes := atts, handlerTag := tag }] },
       [Event.subscribe]) := by
  simp [Attributes_Request_sizet, he, hrk, hpk,
    subscribe_when_accepted s env _ hf hs, hp]

theorem sizet_when_success (s : State) (env : Env)
    (atts : List (Option String)) (tag : Nat) (rk pk : Option String)
    (he : atts.isEmpty = false) (hrk : rk.isNone = false)
    (hpk : pk.isNone = false) (hf : storeFull s = false)
    (hs : env.subscribe_ok = true) (hp : env.request_id_ptr = true) :
    Attributes_Request_sizet s env atts tag rk pk =
      (env.send_ok,
       { s with
         request_id_counter := (s.request_id_counter + 1) % SIZE_T_WRAP,
         m_attribute_request_callbacks :=
          s.m_attribute_request_callbacks ++
            [{ attributes := atts, handlerTag := tag,
               m_request_id :=
                some ((s.request_id_counter + 1) % SIZE_T_WRAP),
               m_attribute_key := pk,
               m_timer_active := true, m_elapsed := 0 }] },
       [Event.subscribe,
        Event.publish
          (ATTRIBUTE_REQUEST_TOPIC_PREFIX ++
            toString ((s.request_id_counter + 1) % SIZE_T_WRAP))
          (rk.getD "") (String.mk (joinedRequest atts).1)]) := by
  simp only [Attributes_Request_sizet, he, hrk, hpk, Bool.false_or,
    subscribe_when_accepted s env _ hf hs, hp]
  simp [setLast_append]

theorem resolve_counter_eq (s : State) (topic : String) (data : Json) :
    (Process_Json_Response s topic data).1.request_id_counter
      = s.request_id_counter := by
  simp only [Process_Json_Response]
  by_cases hemp : (processList s.m_attribute_request_callbacks
      (parseRequestId ATTRIBUTE_RESPONSE_TOPIC topic) data).1.isEmpty = true
  · simp [hemp, Attributes_Request_Unsubscribe]
  · replace hemp := bool_not_true hemp
    simp [hemp]

theorem tick_counter_eq (s : State) (dt th : Nat) :
    (tick s dt th).1.request_id_counter = s.request_id_counter := by
  simp only [tick]
  by_cases hc : ((tickList s.m_attribute_request_callbacks dt th).1.isEmpty &&
      !(tickList s.m_attribute_request_callbacks dt th).2.isEmpty) = true
  · simp [hc, Attributes_Request_Unsubscribe]
  · replace hc := bool_not_true hc
    simp [hc, Bool.false_eq_true]

/-- Along any wrapped-counter history shorter than the counter modulus, the
reachable-state invariant still holds and the counter stays bounded by the
number of operations run (so it has not wrapped yet). -/
theorem invSizet_runOps (cap : Option Nat) : ∀ (ops : List Op),
    ops.length < SIZE_T_WRAP →
    Inv (runOpsSizet cap ops) ∧
    (runOpsSizet cap ops).request_id_counter ≤ ops.length := by
  intro ops
  induction ops using List.reverseRecOn with
  | nil => intro _; exact ⟨inv_init cap, Nat.le_refl 0⟩
  | append_singleton t op ih =>
    intro hlen
    rw [List.length_append, List.length_singleton] at hlen
    obtain ⟨hInv, hc⟩ := ih (by omega)
    rw [runOpsSizet_append]
    cases op with
    | issue env atts tag rk pk =>
      simp only [applyOpSizet]
      by_cases he : atts.isEmpty = true
      · rw [sizet_when_empty (runOpsSizet cap t) env atts tag rk pk he]
        exact ⟨hInv, by simpa using Nat.le_succ_of_le hc⟩
      · replace he := bool_not_true he
        by_cases hrk : rk.isNone = true
        · rw [sizet_when_null_key (runOpsSizet cap t) env atts tag rk pk
            (Or.inl hrk)]
          exact ⟨hInv, by simpa using Nat.le_succ_of_le hc⟩
        · replace hrk := bool_not_true hrk
          by_cases hpk : pk.isNone = true
          · rw [sizet_when_null_key (runOpsSizet cap t) env atts tag rk pk
              (Or.inr hpk)]
            exact ⟨hInv, by simpa using Nat.le_succ_of_le hc⟩
          · replace hpk := bool_not_true hpk
            by_cases hf : storeFull (runOpsSizet cap t) = true
            · rw [sizet_when_full (runOpsSizet cap t) env atts tag rk pk hf]
              exact ⟨hInv, by simpa using Nat.le_succ_of_le hc⟩
            · replace hf := bool_not_true hf
              by_cases hs : env.subscribe_ok = true
              · by_cases hp : env.request_id_ptr = true
                · rw [sizet_when_success (runOpsSizet cap t) env atts tag
                    rk pk he hrk hpk hf hs hp]
                  have hnw : (runOpsSizet cap t).request_id_counter + 1
                      < SIZE_T_WRAP := by omega
                  rw [Nat.mod_eq_of_lt hnw]
                  have hkeySome : pk.isSome = true := by
                    cases hpk2 : pk with
                    | none => rw [hpk2] at hpk; simp at hpk
                    | some v => rfl
                  refine ⟨inv_insert_assigned (runOpsSizet cap t) _ rfl
                    hkeySome hInv, ?_⟩
                  simpa using Nat.succ_le_succ hc
                · replace hp := bool_not_true hp
                  rw [sizet_when_null_id_ptr (runOpsSizet cap t) env atts tag
                    rk pk he hrk hpk hf hs hp]
                  exact ⟨inv_insert_unassigned (runOpsSizet cap t) _ rfl rfl
                    hInv, by simpa using Nat.le_succ_of_le hc⟩
              · replace hs := bool_not_true hs
                rw [sizet_when_subscribe_refused (runOpsSizet cap t) env atts
                  tag rk pk he hrk hpk hf hs]
                exact ⟨hInv, by simpa using Nat.le_succ_of_le hc⟩
    | resolve topic data =>
      refine ⟨inv_resolve (runOpsSizet cap t) topic data hInv, ?_⟩
      rw [show (applyOpSizet (runOpsSizet cap t) (Op.resolve topic data))
          = (Process_Json_Response (runOpsSizet cap t) topic data).1 from rfl,
        resolve_counter_eq]
      simpa using Nat.le_succ_of_le hc
    | tickOp dt th =>
      refine ⟨inv_tick (runOpsSizet cap t) dt th hInv, ?_⟩
      rw [show (applyOpSizet (runOpsSizet cap t) (Op.tickOp dt th))
          = (tick (runOpsSizet cap t) dt th).1 from rfl, tick_counter_eq]
      simpa using Nat.le_succ_of_le hc
    | unsubscribeAll =>
      refine ⟨inv_unsub (runOpsSizet cap t) hInv, ?_⟩
      simpa using Nat.le_succ_of_le hc

/-- The single issue operation repeated to drive the counter around its
modulus. -/
def repeatedIssueOp : Op :=
  Op.issue allOkEnv [some "a"] 0 (some CLIENT_REQUEST_KEYS)
    (some CLIENT_RESPONSE_KEY)

/-- Running `n` repeated issues from the empty dynamic store: the counter
follows `n` modulo the wrap and the pending ids are exactly
`1 % W, 2 % W, ..., n % W` in order. -/
theorem runOpsSizet_replicate (n : Nat) :
    (runOpsSizet none (List.replicate n repeatedIssueOp)).capacity = none ∧
    (runOpsSizet none (List.replicate n repeatedIssueOp)).request_id_counter
      = n % SIZE_T_WRAP ∧
    idsOf (runOpsSizet none (List.replicate n repeatedIssueOp)
        ).m_attribute_request_callbacks
      = (List.range n).map (fun k => (k + 1) % SIZE_T_WRAP) := by
  induction n with
  | zero =>
    refine ⟨rfl, ?_, ?_⟩ <;> simp [runOpsSizet, initState, idsOf]
  | succ k ih =>
    obtain ⟨ihcap, ihc, ihids⟩ := ih
    rw [List.replicate_succ', runOpsSizet_append]
    have hf : storeFull (runOpsSizet none
        (List.replicate k repeatedIssueOp)) = false := by
      simp [storeFull, ihcap]
    have hstep := sizet_when_success
      (runOpsSizet none (List.replicate k repeatedIssueOp)) allOkEnv
      [some "a"] 0 (some CLIENT_REQUEST_KEYS) (some CLIENT_RESPONSE_KEY)
      rfl rfl rfl hf rfl rfl
    rw [show applyOpSizet (runOpsSizet none (List.replicate k repeatedIssueOp))
        repeatedIssueOp
        = (Attributes_Request_sizet
            (runOpsSizet none (List.replicate k repeatedIssueOp)) allOkEnv
            [some "a"] 0 (some CLIENT_REQUEST_KEYS)
            (some CLIENT_RESPONSE_KEY)).2.1 from rfl, hstep]
    have hmod : ((runOpsSizet none (List.replicate k repeatedIssueOp)
        ).request_id_counter + 1) % SIZE_T_WRAP = (k + 1) % SIZE_T_WRAP := by
      rw [ihc]
      conv_rhs => rw [Nat.add_mod]
      rw [Nat.mod_eq_of_lt
        (show (1 : Nat) < SIZE_T_WRAP by norm_num [SIZE_T_WRAP])]
    refine ⟨ihcap, ?_, ?_⟩
    · exact hmod
    · rw [idsOf_append_assigned _ _ _ rfl, ihids, hmod, List.range_succ,
        List.map_append]
      rfl

/-- C6, counterexample: after `2^64 + 1` successful issues with none
resolved, the wrapped `size_t` counter has come back around and the latest
record is assigned id 1 while the very first pending record still holds
id 1 — two pending records share a request id, refuting the unconditional
uniqueness clause of the claim. -/
theorem c6_counterexample :
    ¬ (idsOf (runOpsSizet none
        (List.replicate (SIZE_T_WRAP + 1) repeatedIssueOp)
        ).m_attribute_request_callbacks).Nodup := by
  intro hnd
  rw [(runOpsSizet_replicate (SIZE_T_WRAP + 1)).2.2] at hnd
  rw [show SIZE_T_WRAP + 1 = Nat.succ SIZE_T_WRAP from rfl,
    List.range_succ, List.map_append] at hnd
  have hW : (SIZE_T_WRAP + 1) % SIZE_T_WRAP = 1 := by
    rw [Nat.add_mod_left]
    exact Nat.mod_eq_of_lt (by norm_num [SIZE_T_WRAP])
  rw [show (List.map (fun k => (k + 1) % SIZE_T_WRAP) [SIZE_T_WRAP])
      = [(SIZE_T_WRAP + 1) % SIZE_T_WRAP] from rfl, hW] at hnd
  have h1mem : (1 : Nat) ∈ (List.range SIZE_T_WRAP).map
      (fun k => (k + 1) % SIZE_T_WRAP) := by
    refine List.mem_map.mpr ⟨0, List.mem_range.mpr (by norm_num [SIZE_T_WRAP]), ?_⟩
    exact Nat.mod_eq_of_lt (by norm_num [SIZE_T_WRAP])
  exact (List.nodup_append.mp hnd).2.2 h1mem (List.mem_singleton.mpr rfl)

/-- C6, amended: the assigned request id equals the shared `size_t`
counter after pre-incrementing it modulo its width (so ids start at 1 and
are strictly increasing until the counter wraps on integer overflow); and
for every history of fewer than `2^64` operations — before the counter can
wrap — a successful issue appends exactly that id to the pending ids, no
two pending records share a request id, and every assigned id is at
least 1. -/
theorem c6_amended_fresh_id_and_uniqueness (cap : Option Nat)
    (ops : List Op) (env : Env) (atts : List (Option String)) (tag : Nat)
    (rk pk : Option String) (hlen : ops.length + 1 < SIZE_T_WRAP)
    (h : (Attributes_Request_sizet (runOpsSizet cap ops) env atts tag rk pk
      ).1 = true) :
    (Attributes_Request_sizet (runOpsSizet cap ops) env atts tag rk pk
        ).2.1.request_id_counter
      = ((runOpsSizet cap ops).request_id_counter + 1) % SIZE_T_WRAP ∧
    idsOf (Attributes_Request_sizet (runOpsSizet cap ops) env atts tag rk pk
        ).2.1.m_attribute_request_callbacks
      = idsOf (runOpsSizet cap ops).m_attribute_request_callbacks ++
          [((runOpsSizet cap ops).request_id_counter + 1) % SIZE_T_WRAP] ∧
    (idsOf (Attributes_Request_sizet (runOpsSizet cap ops) env atts tag rk pk
        ).2.1.m_attribute_request_callbacks).Nodup ∧
    (∀ k ∈ idsOf (Attributes_Request_sizet (runOpsSizet cap ops) env atts
        tag rk pk).2.1.m_attribute_request_callbacks, 1 ≤ k) := by
  obtain ⟨hInv, hc⟩ := invSizet_runOps cap ops (by omega)
  by_cases he : atts.isEmpty = true
  · rw [sizet_when_empty (runOpsSizet cap ops) env atts tag rk pk he] at h
    exact absurd h (by simp)
  · replace he := bool_not_true he
    by_cases hrk : rk.isNone = true
    · rw [sizet_when_null_key (runOpsSizet cap ops) env atts tag rk pk
        (Or.inl hrk)] at h
      exact absurd h (by simp)
    · replace hrk := bool_not_true hrk
      by_cases hpk : pk.isNone = true
      · rw [sizet_when_null_key (runOpsSizet cap ops) env atts tag rk pk
          (Or.inr hpk)] at h
        exact absurd h (by simp)
      · replace hpk := bool_not_true hpk
        by_cases hf : storeFull (runOpsSizet cap ops) = true
        · rw [sizet_when_full (runOpsSizet cap ops) env atts tag rk pk hf]
            at h
          exact absurd h (by simp)
        · replace hf := bool_not_true hf
          by_cases hs : env.subscribe_ok = true
          · by_cases hp : env.request_id_ptr = true
            · rw [sizet_when_success (runOpsSizet cap ops) env atts tag rk pk
                he hrk hpk hf hs hp]
              have hnw : (runOpsSizet cap ops).request_id_counter + 1
                  < SIZE_T_WRAP := by omega
              rw [Nat.mod_eq_of_lt hnw]
              have hkeySome : pk.isSome = true := by
                cases hpk2 : pk with
                | none => rw [hpk2] at hpk; simp at hpk
                | some v => rfl
              refine ⟨rfl, ?_, ?_, ?_⟩
              · exact idsOf_append_assigned
                  (runOpsSizet cap ops).m_attribute_request_callbacks _ _ rfl
              · exact (inv_insert_assigned (runOpsSizet cap ops) _ rfl
                  hkeySome hInv).1
              · intro k hk
                exact ((inv_insert_assigned (runOpsSizet cap ops) _ rfl
                  hkeySome hInv).2.1 k hk).1
            · replace hp := bool_not_true hp
              rw [sizet_when_null_id_ptr (runOpsSizet cap ops) env atts tag
                rk pk he hrk hpk hf hs hp] at h
              exact absurd h (by simp)
          · replace hs := bool_not_true hs
            rw [sizet_when_subscribe_refused (runOpsSizet cap ops) env atts
              tag rk pk he hrk hpk hf hs] at h
            exact absurd h (by simp)

/-- C6 witness: the amended theorem applied to the empty history (well
below the wrap bound) and a first successful single-key issue, whose
assigned id is `(0 + 1) % 2^64 = 1`. -/
theorem c6_amended_witness :
    ([] : List Op).length + 1 < SIZE_T_WRAP ∧
    (Attributes_Request_sizet (runOpsSizet none []) allOkEnv [some "a"] 4
      (some CLIENT_REQUEST_KEYS) (some CLIENT_RESPONSE_KEY)).1 = true ∧
    ((Attributes_Request_sizet (runOpsSizet none []) allOkEnv [some "a"] 4
        (some CLIENT_REQUEST_KEYS) (some CLIENT_RESPONSE_KEY)
        ).2.1.request_id_counter
      = ((runOpsSizet none []).request_id_counter + 1) % SIZE_T_WRAP ∧
     idsOf (Attributes_Request_sizet (runOpsSizet none []) allOkEnv
        [some "a"] 4 (some CLIENT_REQUEST_KEYS) (some CLIENT_RESPONSE_KEY)
        ).2.1.m_attribute_request_callbacks
      = idsOf (runOpsSizet none []).m_attribute_request_callbacks ++
          [((runOpsSizet none []).request_id_counter + 1) % SIZE_T_WRAP] ∧
     (idsOf (Attributes_Request_sizet (runOpsSizet none []) allOkEnv
        [some "a"] 4 (some CLIENT_REQUEST_KEYS) (some CLIENT_RESPONSE_KEY)
        ).2.1.m_attribute_request_callbacks).Nodup ∧
     (∀ k ∈ idsOf (Attributes_Request_sizet (runOpsSizet none []) allOkEnv
        [some "a"] 4 (some CLIENT_REQUEST_KEYS) (some CLIENT_RESPONSE_KEY)
        ).2.1.m_attribute_request_callbacks, 1 ≤ k)) :=
  ⟨by norm_num [SIZE_T_WRAP], by decide,
   c6_amended_fresh_id_and_uniqueness none [] allOkEnv [some "a"] 4
     (some CLIENT_REQUEST_KEYS) (some CLIENT_RESPONSE_KEY)
     (by norm_num [SIZE_T_WRAP]) (by decide)⟩

/-- Every timeout tick invokes exactly one handler per record it removes:
the number of handler invocations it emits plus the number of records that
survive equals the number of records before the tick. -/
theorem tick_handler_count (s : State) (dt th : Nat) :
    ((tick s dt th).2.filter Event.isHandler).length
      + (tick s dt th).1.m_attribute_request_callbacks.length
      = s.m_attribute_request_callbacks.length := by
  have hall :
      (tickList s.m_attribute_request_callbacks dt th).2.filter Event.isHandler
        = (tickList s.m_attribute_request_callbacks dt th).2 :=
    List.filter_eq_self.mpr
      (tickList_events_handler dt th s.m_attribute_request_callbacks)
  have hcnt := tickList_count dt th s.m_attribute_request_callbacks
  unfold tick
  by_cases hc : ((tickList s.m_attribute_request_callbacks dt th).1.isEmpty &&
      !(tickList s.m_attribute_request_callbacks dt th).2.isEmpty) = true
  · simp only [hc, if_true, Attributes_Request_Unsubscribe,
      List.filter_append, hall]
    rw [show List.filter Event.isHandler [Event.unsubscribe] = [] from rfl]
    have hnil : (tickList s.m_attribute_request_callbacks dt th).1 = [] :=
      List.isEmpty_iff.mp (Bool.and_elim_left hc)
    rw [hnil] at hcnt
    simpa using hcnt
  · replace hc := bool_not_true hc
    simp only [hc, Bool.false_eq_true, if_false, hall]
    exact hcnt

/-- C1: from any reachable state, a record matched by an inbound response
is completed exactly once — its handler is invoked exactly once with the
narrowed document, it is removed from the store exactly once, and a second
delivery of the same id invokes no handler and removes nothing — and on
the (spec-modelled) timeout path every tick invokes exactly one handler
per record it removes, so each record completes by at most one of the two
paths. -/
theorem c1_completion_exactly_once (cap : Option Nat) (ops : List Op)
    (topic : String) (data : Json) (r : Attribute_Request_Callback)
    (hmem : r ∈ (runOps cap ops).m_attribute_request_callbacks)
    (hid : r.m_request_id
      = some (parseRequestId ATTRIBUTE_RESPONSE_TOPIC topic)) :
    ∃ key l1 l2,
      r.m_attribute_key = some key ∧
      (runOps cap ops).m_attribute_request_callbacks = l1 ++ r :: l2 ∧
      (Process_Json_Response (runOps cap ops) topic data
        ).1.m_attribute_request_callbacks = l1 ++ l2 ∧
      (Process_Json_Response (runOps cap ops) topic data).2.filter
          Event.isHandler
        = [Event.handlerCall r.handlerTag
            (if data.containsKey key then data.getKey key else data)] ∧
      (∀ x ∈ l1 ++ l2, x.m_request_id
        ≠ some (parseRequestId ATTRIBUTE_RESPONSE_TOPIC topic)) ∧
      (∀ d2 : Json,
        (Process_Json_Response
            (Process_Json_Response (runOps cap ops) topic data).1 topic d2
          ).1.m_attribute_request_callbacks = l1 ++ l2 ∧
        (Process_Json_Response
            (Process_Json_Response (runOps cap ops) topic data).1 topic d2
          ).2.filter Event.isHandler = []) ∧
      (∀ dt th : Nat,
        ((tick (runOps cap ops) dt th).2.filter Event.isHandler).length
          + (tick (runOps cap ops) dt th
              ).1.m_attribute_request_callbacks.length
          = (runOps cap ops).m_attribute_request_callbacks.length) := by
  obtain ⟨hnd, _hbd, hok⟩ := inv_runOps cap ops
  set rid := parseRequestId ATTRIBUTE_RESPONSE_TOPIC topic with hridDef
  obtain ⟨l1, l2, hsplit⟩ := List.append_of_mem hmem
  have hkeySome : r.m_attribute_key.isSome = true := by
    have := hok r hmem
    rw [hid] at this
    exact this.symm.trans rfl
  obtain ⟨key, hkey⟩ := Option.isSome_iff_exists.mp hkeySome
  have hndSplit := hnd
  rw [hsplit, idsOf_append] at hndSplit
  have hidsCons : idsOf (r :: l2) = rid :: idsOf l2 := by
    simp [idsOf, List.filterMap_cons, hid]
  rw [hidsCons] at hndSplit
  have hridL1 : rid ∉ idsOf l1 := by
    intro hin
    exact (List.nodup_append.mp hndSplit).2.2 hin (List.mem_cons_self _ _)
  have hridL2 : rid ∉ idsOf l2 :=
    (List.nodup_cons.mp (List.nodup_append.mp hndSplit).2.1).1
  have hno1 : ∀ x ∈ l1, x.m_request_id ≠ some rid := by
    intro x hx hxe
    exact hridL1 (List.mem_filterMap.mpr ⟨x, hx, hxe⟩)
  have hno2 : ∀ x ∈ l2, x.m_request_id ≠ some rid := by
    intro x hx hxe
    exact hridL2 (List.mem_filterMap.mpr ⟨x, hx, hxe⟩)
  have hno12 : ∀ x ∈ l1 ++ l2, x.m_request_id ≠ some rid := by
    intro x hx
    rcases List.mem_append.mp hx with hx | hx
    · exact hno1 x hx
    · exact hno2 x hx
  have hscan : processList (runOps cap ops).m_attribute_request_callbacks
      rid data = (l1 ++ l2,
        [Event.handlerCall r.handlerTag
          (if data.containsKey key then data.getKey key else data)]) := by
    rw [hsplit, processList_first_match rid data r hid l1 l2 hno1]
    simp [matchEvents, hkey]
  have hfirstCb : (Process_Json_Response (runOps cap ops) topic data
      ).1.m_attribute_request_callbacks = l1 ++ l2 := by
    simp only [Process_Json_Response, ← hridDef, hscan]
    by_cases hemp : (l1 ++ l2).isEmpty = true
    · simp [hemp, Attributes_Request_Unsubscribe, List.isEmpty_iff.mp hemp]
    · replace hemp := bool_not_true hemp
      simp [hemp]
  have hfirstEv : (Process_Json_Response (runOps cap ops) topic data
      ).2.filter Event.isHandler
      = [Event.handlerCall r.handlerTag
          (if data.containsKey key then data.getKey key else data)] := by
    simp only [Process_Json_Response, ← hridDef, hscan]
    by_cases hemp : (l1 ++ l2).isEmpty = true
    · simp [hemp, Attributes_Request_Unsubscribe, Event.isHandler]
    · replace hemp := bool_not_true hemp
      simp [hemp, Event.isHandler]
  refine ⟨key, l1, l2, hkey, hsplit, hfirstCb, hfirstEv, hno12, ?_, ?_⟩
  · intro d2
    have hsecond := resolve_unmatched_noop (Process_Json_Response
      (runOps cap ops) topic data).1 topic d2
      (by rw [hfirstCb]; exact hno12)
    exact ⟨hsecond.1.trans hfirstCb, hsecond.2⟩
  · intro dt th
    exact tick_handler_count (runOps cap ops) dt th

/-- A one-issue history used to witness the completion claim. -/
def c1ops : List Op :=
  [Op.issue allOkEnv [some "a"] 5 (some CLIENT_REQUEST_KEYS)
    (some CLIENT_RESPONSE_KEY)]

def c1topic : String := "v1/devices/me/attributes/response/1"

/-- The pending record produced by running `c1ops`. -/
def c1rec : Attribute_Request_Callback :=
  { attributes := [some "a"], handlerTag := 5, m_request_id := some 1,
    m_attribute_key := some "client", m_timer_active := true, m_elapsed := 0 }

/-- C1 witness: the theorem applied to the state reached by one successful
issue, whose single pending record is matched by a response carrying
id 1. -/
theorem c1_witness :
    c1rec ∈ (runOps none c1ops).m_attribute_request_callbacks ∧
    c1rec.m_request_id
      = some (parseRequestId ATTRIBUTE_RESPONSE_TOPIC c1topic) ∧
    (∃ key l1 l2,
      c1rec.m_attribute_key = some key ∧
      (runOps none c1ops).m_attribute_request_callbacks = l1 ++ c1rec :: l2 ∧
      (Process_Json_Response (runOps none c1ops) c1topic (Json.obj [])
        ).1.m_attribute_request_callbacks = l1 ++ l2 ∧
      (Process_Json_Response (runOps none c1ops) c1topic (Json.obj [])
        ).2.filter Event.isHandler
        = [Event.handlerCall c1rec.handlerTag
            (if (Json.obj []).containsKey key then (Json.obj []).getKey key
             else (Json.obj []))] ∧
      (∀ x ∈ l1 ++ l2, x.m_request_id
        ≠ some (parseRequestId ATTRIBUTE_RESPONSE_TOPIC c1topic)) ∧
      (∀ d2 : Json,
        (Process_Json_Response
            (Process_Json_Response (runOps none c1ops) c1topic
              (Json.obj [])).1 c1topic d2
          ).1.m_attribute_request_callbacks = l1 ++ l2 ∧
        (Process_Json_Response
            (Process_Json_Response (runOps none c1ops) c1topic
              (Json.obj [])).1 c1topic d2
          ).2.filter Event.isHandler = []) ∧
      (∀ dt th : Nat,
        ((tick (runOps none c1ops) dt th).2.filter Event.isHandler).length
          + (tick (runOps none c1ops) dt th
              ).1.m_attribute_request_callbacks.length
          = (runOps none c1ops).m_attribute_request_callbacks.length)) :=
  ⟨by decide, by decide,
   c1_completion_exactly_once none c1ops c1topic (Json.obj []) c1rec
     (by decide) (by decide)⟩

end ThingsBoard
